import Mathlib

/-!
Verification of the foreign-boundary core of the Gisquick QGIS plugin
(`src/python/gisquick_ws.py`): the RPC dispatcher (`callback_wrapper`),
the error classifier, the JSON encoders, the string marshal (`go_string`)
and the `GisquickWs` lifecycle controller.

Modelling choices (shallow embedding of the Python source):
* Python JSON-compatible values are modelled by `JValue`, with an extra
  constructor `qgisNull` for the QGIS `NULL` sentinel (`qgis.core.NULL`),
  which is not JSON-serializable by the plain encoder.
* `json.loads` on the inbound bytes is an external library call; it is
  modelled by its outcome, an `Except String JValue` (error = the decode
  exception message), which is the input of the dispatcher.
* A raised Python exception is modelled by `PyExc`: its type name, its
  `str()` form, `some code` exactly when it is an instance of `WsError`,
  its formatted traceback frames, and its `__cause__` chain.
* `json.dumps` is modelled by its observable outcome: the plain encoder
  fails exactly when the value contains the `qgisNull` sentinel, the
  `GisquickJSONEncoder` replaces the sentinel by JSON null and succeeds.
* The dispatcher `dispatchT` carries ghost instrumentation: the list of
  arguments the handler was invoked with, so that invocation counts and
  invocation arguments can be stated.
-/

/-- JSON-compatible Python values, plus the QGIS `NULL` sentinel
(`qgis.core.NULL`), which is a `QVariant`, not a JSON type. -/
inductive JValue where
  | null
  | bool (b : Bool)
  | num (n : Int)
  | str (s : String)
  | arr (xs : List JValue)
  | obj (fields : List (String × JValue))
  | qgisNull
deriving Repr

/-- First-match association lookup, modelling Python dict lookup
(`json.loads` produces dicts with unique keys). -/
def lookupF (k : String) : List (String × JValue) → Option JValue
  | [] => none
  | (a, v) :: rest => if k == a then some v else lookupF k rest

/-- Python `k in msg` / `msg[k]` on a decoded dict: `some` iff the key is
present.  Non-dict values have no keys. -/
def JValue.lookup (v : JValue) (k : String) : Option JValue :=
  match v with
  | .obj fs => lookupF k fs
  | _ => none

/-- Exceptions that escape `callback_wrapper` itself (raised outside its
`try` block, lines 75-79 of gisquick_ws.py). -/
inductive PyEscape where
  | jsonDecodeError (e : String)
  | keyError (k : String)
  | typeErr
deriving Repr

/-- Python subscript `v[k]` on a decoded JSON value: a dict yields the
entry or raises `KeyError`; any non-dict value raises `TypeError`. -/
def getItem (v : JValue) (k : String) : Except PyEscape JValue :=
  match v with
  | .obj fs =>
    match lookupF k fs with
    | some x => Except.ok x
    | none => Except.error (PyEscape.keyError k)
  | _ => Except.error PyEscape.typeErr

/-- Python truthiness of a `JValue`, used by `callback(msg) or ""`
(line 82): `None`, `False`, `0`, `""`, `[]`, `{}` and the QGIS null
variant are falsy. -/
def pyTruthy : JValue → Bool
  | .null => false
  | .bool b => b
  | .num n => n != 0
  | .str s => s != ""
  | .arr xs => !xs.isEmpty
  | .obj fs => !fs.isEmpty
  | .qgisNull => false

/-- A raised Python exception: its type name, `str(e)`, `some code` iff
`isinstance(e, WsError)` (whose constructor stores `code`, default 500),
its captured stack frames, and `e.__cause__`. -/
inductive PyExc where
  | mk (tyName : String) (msg : String) (wsCode : Option Int)
      (frames : List String) (cause : Option PyExc)

/-- Models `str(e)`; for `WsError(msg, code)` this is `msg` since the
constructor calls `super().__init__(msg)`. -/
def PyExc.msg : PyExc → String
  | .mk _ m _ _ _ => m

/-- Models `e.code` when `isinstance(e, WsError)`, `none` otherwise. -/
def PyExc.wsCode : PyExc → Option Int
  | .mk _ _ c _ _ => c

/-- Models `e.__cause__` (`none` models Python `None`). -/
def PyExc.cause : PyExc → Option PyExc
  | .mk _ _ _ _ c => c

/-- Models joining `TracebackException.from_exception(e).format()`: the cause
chain is printed first, then the frames, then the final
`Type: message` line.  Always ends in a newline, hence never empty. -/
def formatTraceback : PyExc → String
  | .mk tyName m _ frames cause =>
    (match cause with
     | some y =>
       formatTraceback y ++
         "\nThe above exception was the direct cause of the following exception:\n\n"
     | none => "") ++
      "Traceback (most recent call last):\n" ++ String.join frames ++
      tyName ++ ": " ++ m ++ "\n"

/-- The response dict built by `callback_wrapper` (lines 76-102), in
insertion order: `type`, optional `id`, `status`, `data`, optional
`traceback`. -/
structure Response where
  type : JValue
  id : Option JValue
  status : Int
  data : JValue
  traceback : Option String

/-- The RPC dispatcher, `callback_wrapper` (gisquick_ws.py lines 74-102)
up to (not including) the final `json.dumps` encoding.  Input: the
outcome of `json.loads` on the inbound bytes, and the registered handler
`callback`.  The second component is ghost instrumentation: the list of
arguments `callback` was invoked with. -/
def dispatchT (callback : JValue → Except PyExc JValue)
    (decoded : Except String JValue) :
    Except PyEscape Response × List JValue :=
  match decoded with
  | .error e => (Except.error (PyEscape.jsonDecodeError e), [])
  | .ok msg =>
    match getItem msg "type" with
    | .error esc => (Except.error esc, [])
    | .ok ty =>
      let i := msg.lookup "id"
      match callback msg with
      | .ok ret =>
        let retValue := if pyTruthy ret then ret else JValue.str ""
        (Except.ok { type := ty, id := i, status := 200,
                     data := retValue, traceback := none }, [msg])
      | .error e =>
        let t := formatTraceback (e.cause.getD e)
        (Except.ok { type := ty, id := i,
                     status := (e.wsCode.getD 500),
                     data := JValue.str e.msg, traceback := some t }, [msg])

mutual
/-- Whether a value contains the QGIS `NULL` sentinel anywhere; the
plain `json.dumps` (no `cls=`) raises `TypeError` exactly then. -/
def hasQgisNull : JValue → Bool
  | .qgisNull => true
  | .arr xs => hasQgisNullList xs
  | .obj fs => hasQgisNullFields fs
  | _ => false

def hasQgisNullList : List JValue → Bool
  | [] => false
  | x :: xs => hasQgisNull x || hasQgisNullList xs

def hasQgisNullFields : List (String × JValue) → Bool
  | [] => false
  | (_, v) :: fs => hasQgisNull v || hasQgisNullFields fs
end

mutual
/-- The normalization performed by `GisquickJSONEncoder` (lines 29-33):
every occurrence of the QGIS `NULL` sentinel becomes JSON null. -/
def normalizeNull : JValue → JValue
  | .qgisNull => JValue.null
  | .arr xs => JValue.arr (normalizeNullList xs)
  | .obj fs => JValue.obj (normalizeNullFields fs)
  | v => v

def normalizeNullList : List JValue → List JValue
  | [] => []
  | x :: xs => normalizeNull x :: normalizeNullList xs

def normalizeNullFields : List (String × JValue) → List (String × JValue)
  | [] => []
  | (k, v) :: fs => (k, normalizeNull v) :: normalizeNullFields fs
end

/-- Plain `json.dumps(v)` (no custom encoder), modelled by its outcome:
raises `TypeError` iff the value contains the QGIS `NULL` sentinel. -/
def json_dumps (v : JValue) : Except String JValue :=
  if hasQgisNull v then
    Except.error "TypeError: Object of type QVariant is not JSON serializable"
  else Except.ok v

/-- Models `json.dumps(v, cls=GisquickJSONEncoder)`: total, the sentinel is
normalized to null. -/
def dumps_gisquick (v : JValue) : JValue := normalizeNull v

/-- The response dict as a JSON object, in insertion order. -/
def Response.toJValue (r : Response) : JValue :=
  JValue.obj (("type", r.type) ::
    (match r.id with | some i => [("id", i)] | none => []) ++
    [("status", JValue.num r.status), ("data", r.data)] ++
    (match r.traceback with
     | some t => [("traceback", JValue.str t)]
     | none => []))

/-- Line 103: `json.dumps(resp, cls=GisquickJSONEncoder)`. -/
def encode_response (r : Response) : JValue := dumps_gisquick r.toJValue

/-- The full foreign-boundary callback: dispatch, then encode with the
Gisquick encoder.  `Except.error` means a Python exception escaped
`callback_wrapper` into the ctypes boundary. -/
def callback_wrapper (callback : JValue → Except PyExc JValue)
    (decoded : Except String JValue) : Except PyEscape JValue :=
  match (dispatchT callback decoded).1 with
  | .error esc => Except.error esc
  | .ok r => Except.ok (encode_response r)

/-- Inbound bytes are malformed when `json.loads` fails, or the decoded
value is not a dict carrying a `"type"` key. -/
def malformedInput : Except String JValue → Bool
  | .error _ => true
  | .ok v =>
    match getItem v "type" with
    | .error _ => true
    | .ok _ => false

/-- The two-field Go string structure (`GoString`, lines 22-23):
UTF-8 data pointer and a 64-bit length field. -/
structure GoStr where
  p : ByteArray
  n : Int

/-- Models `go_string(s)` (lines 25-26): `GoString(s.encode("utf-8"), len(s))`.
Note the length field is Python `len(s)` — the character count of the
host string — while the data is its UTF-8 encoding. -/
def go_string (s : String) : GoStr :=
  { p := s.toUTF8, n := (s.length : Int) }

/-- Invocations of native entry points, as an observable trace.  The
loadLibrary event records which handle `ctypes.cdll.LoadLibrary`
produced. -/
inductive NativeCall where
  | loadLibrary (handle : Nat)
  | startNative
  | stopNative
  | sendMessage (payload : JValue)
deriving Repr

def isLoadCall : NativeCall → Bool
  | .loadLibrary _ => true
  | _ => false

/-- The mutable state of the `GisquickWs` singleton: `_lib` is `None`
until loaded.  `nextHandle` is ghost instrumentation giving each
`LoadLibrary` result a distinct identity, so that handle reuse is
expressible. -/
structure WsSt where
  lib : Option Nat
  nextHandle : Nat
deriving Repr, DecidableEq

/-- The initial state: the class attribute `_lib = None` (line 45). -/
def initSt : WsSt := { lib := none, nextHandle := 0 }

namespace GisquickWs

/-- Models `_load_lib` (lines 47-51): `if not self._lib:` load the artifact and
store the handle; a no-op when a handle already exists. -/
def load_lib (s : WsSt) : WsSt × List NativeCall :=
  match s.lib with
  | some _ => (s, [])
  | none =>
    ({ lib := some s.nextHandle, nextHandle := s.nextHandle + 1 },
     [NativeCall.loadLibrary s.nextHandle])

/-- Models `start` (lines 70-119), at the lifecycle level: `_load_lib()`, then
the blocking native `Start` entry point with the marshalled strings and
the two callback wrappers; the trailing `_unload_lib()` is a no-op
(lines 53-54). -/
def start (s : WsSt) : WsSt × List NativeCall :=
  let p := load_lib s
  (p.1, p.2 ++ [NativeCall.startNative])

/-- Models `stop` (lines 121-123): calls the native `Stop` only when a handle
is loaded; returns the trace of native calls made. -/
def stop (s : WsSt) : List NativeCall :=
  match s.lib with
  | some _ => [NativeCall.stopNative]
  | none => []

/-- Models `send(name, data=None)` (lines 125-132): builds
`{"type": name, "data"?: data}` (the `data` key iff `data is not None`),
then — only when a handle is loaded — serializes it with the plain
`json.dumps` and passes it to the native `SendMessage`.  `Except.error`
models the serialization exception propagating to the caller. -/
def send (s : WsSt) (name : String) (data : JValue) :
    Except String (List NativeCall) :=
  let msg := JValue.obj (("type", JValue.str name) ::
    (match data with | .null => [] | d => [("data", d)]))
  match s.lib with
  | none => Except.ok []
  | some _ =>
    match json_dumps msg with
    | .error e => Except.error e
    | .ok b => Except.ok [NativeCall.sendMessage b]

end GisquickWs

/-- Lifecycle operations invoked by the host, for stating sequences of
calls on the singleton. -/
inductive LifeOp where
  | loadOp
  | startOp
  | stopOp
deriving Repr, DecidableEq

def runOp (s : WsSt) : LifeOp → WsSt × List NativeCall
  | .loadOp => GisquickWs.load_lib s
  | .startOp => GisquickWs.start s
  | .stopOp => (s, GisquickWs.stop s)

def runOps : List LifeOp → WsSt → WsSt × List NativeCall
  | [], s => (s, [])
  | op :: rest, s =>
    let p := runOp s op
    let q := runOps rest p.1
    (q.1, p.2 ++ q.2)

/-- Sample values used to exercise the dispatcher on concrete inputs. -/
def sampleHandlerOk : JValue → Except PyExc JValue :=
  fun _ => Except.ok (JValue.str "ok")

def sampleMsgT : JValue := JValue.obj [("type", JValue.str "t")]

def sampleResponseOk : Response :=
  { type := JValue.str "t", id := none, status := 200,
    data := JValue.str "ok", traceback := none }

/-- Scenario B structured failure: `WsError("Project is not opened", 404)`. -/
def wsError404 : PyExc :=
  PyExc.mk "WsError" "Project is not opened" (some 404)
    ["  File webgisplugin.py, line 612, in project_info\n"] none

/-- An upstream root-cause failure, as raised inside `get_project_layers`. -/
def rootCauseExc : PyExc :=
  PyExc.mk "KeyError" "shortName" none
    ["  File webgisplugin.py, line 210, in add_metadata\n"] none

/-- The wrapper of `raise Exception(...) from e` (webgisplugin.py line 448). -/
def wrapperExc : PyExc :=
  PyExc.mk "Exception" "Failed to collect metadata of layer L" none
    ["  File webgisplugin.py, line 448, in get_project_layers\n"]
    (some rootCauseExc)

def msgProjectInfo : JValue :=
  JValue.obj [("type", JValue.str "ProjectInfo"), ("id", JValue.str "1")]

def msgProjectLayers : JValue :=
  JValue.obj [("type", JValue.str "ProjectLayers")]

theorem formatTraceback_ne_empty (e : PyExc) : formatTraceback e ≠ "" := by
  cases e with
  | mk t m w fr c =>
    intro h
    have h2 := congrArg String.length h
    rw [formatTraceback.eq_def] at h2
    simp only [String.length_append] at h2
    have h3 : ("\n" : String).length = 1 := rfl
    have h4 : ("" : String).length = 0 := rfl
    omega

mutual
theorem hasQgisNull_normalizeNull : (v : JValue) →
    hasQgisNull (normalizeNull v) = false
  | .null => by simp [normalizeNull, hasQgisNull]
  | .bool b => by simp [normalizeNull, hasQgisNull]
  | .num n => by simp [normalizeNull, hasQgisNull]
  | .str s => by simp [normalizeNull, hasQgisNull]
  | .qgisNull => by simp [normalizeNull, hasQgisNull]
  | .arr xs => by
    simp [normalizeNull, hasQgisNull, hasQgisNullList_normalizeNullList xs]
  | .obj fs => by
    simp [normalizeNull, hasQgisNull, hasQgisNullFields_normalizeNullFields fs]

theorem hasQgisNullList_normalizeNullList : (xs : List JValue) →
    hasQgisNullList (normalizeNullList xs) = false
  | [] => by simp [normalizeNullList, hasQgisNullList]
  | x :: xs => by
    simp [normalizeNullList, hasQgisNullList, hasQgisNull_normalizeNull x,
      hasQgisNullList_normalizeNullList xs]

theorem hasQgisNullFields_normalizeNullFields : (fs : List (String × JValue)) →
    hasQgisNullFields (normalizeNullFields fs) = false
  | [] => by simp [normalizeNullFields, hasQgisNullFields]
  | (k, v) :: fs => by
    simp [normalizeNullFields, hasQgisNullFields, hasQgisNull_normalizeNull v,
      hasQgisNullFields_normalizeNullFields fs]
end

theorem lookup_encode_response (r : Response) :
    (encode_response r).lookup "status" = some (JValue.num r.status) ∧
    (encode_response r).lookup "data" = some (normalizeNull r.data) ∧
    ((encode_response r).lookup "traceback").isSome = r.traceback.isSome := by
  obtain ⟨ty, i, st, da, tb⟩ := r
  cases i <;> cases tb <;>
    simp [encode_response, dumps_gisquick, Response.toJValue, JValue.lookup,
      normalizeNull, normalizeNullFields, lookupF]

/-- C1 (counterexample): on inbound bytes that are not valid JSON
(`json.loads` raises `Expecting value`), `callback_wrapper` does not
return a status-500 Response Envelope: the decode exception escapes the
dispatcher (lines 75 and 77 sit outside the `try` block). -/
theorem C1_cex_decode_error_escapes :
    callback_wrapper (fun _ => Except.ok (JValue.str "ok"))
        (Except.error "Expecting value: line 1 column 1 (char 0)") =
      Except.error
        (PyEscape.jsonDecodeError "Expecting value: line 1 column 1 (char 0)") :=
  rfl

/-- C1 (amended): for every inbound byte string that is not valid JSON,
or whose decoded value is not a dict carrying a `type` key, the
dispatcher raises — the decode/lookup exception escapes
`callback_wrapper` — so no Response Envelope is produced and the handler
is never invoked. -/
theorem C1_malformed_input_raises (c : JValue → Except PyExc JValue)
    (d : Except String JValue) (h : malformedInput d = true) :
    (∃ esc, callback_wrapper c d = Except.error esc) ∧
    (dispatchT c d).2 = [] := by
  cases d with
  | error e =>
    exact ⟨⟨PyEscape.jsonDecodeError e, rfl⟩, rfl⟩
  | ok v =>
    cases hg : getItem v "type" with
    | error esc =>
      refine ⟨⟨esc, ?_⟩, ?_⟩ <;>
        simp [callback_wrapper, dispatchT, hg]
    | ok ty =>
      rw [malformedInput, hg] at h
      exact absurd h (by simp)

/-- C1 witness for the amended theorem at a concrete malformed input
(a decoded object lacking the `type` key). -/
theorem C1_malformed_witness :
    malformedInput (Except.ok (JValue.obj [("id", JValue.num 1)])) = true ∧
    ((∃ esc, callback_wrapper (fun _ => Except.ok (JValue.str "ok"))
        (Except.ok (JValue.obj [("id", JValue.num 1)])) = Except.error esc) ∧
     (dispatchT (fun _ => Except.ok (JValue.str "ok"))
        (Except.ok (JValue.obj [("id", JValue.num 1)]))).2 = []) :=
  ⟨rfl, C1_malformed_input_raises _ _ rfl⟩

/-- C2 (counterexample): a handler returning the falsy value `0` on
`{"type": "t", "id": "7"}` yields `data = ""`, not `data = 0`, because
of `callback(msg) or ""` on line 82. -/
theorem C2_cex_falsy_result :
    (dispatchT (fun _ => Except.ok (JValue.num 0))
        (Except.ok (JValue.obj [("type", JValue.str "t"),
                                ("id", JValue.str "7")]))).1 =
      Except.ok { type := JValue.str "t", id := some (JValue.str "7"),
                  status := 200, data := JValue.str "", traceback := none } ∧
    JValue.str "" ≠ JValue.num 0 :=
  ⟨rfl, fun h => JValue.noConfusion h⟩

/-- C2 (amended): for every Command Envelope whose handler returns `V`
without raising, the dispatcher produces a Response Envelope with the
input `type`, status 200, and data equal to `V` when `V` is truthy and
to the empty string when `V` is falsy (`callback(msg) or ""`); `id` is
present iff the input carried one, copied verbatim. -/
theorem C2_success_envelope (c : JValue → Except PyExc JValue)
    (msg ty v : JValue)
    (hty : getItem msg "type" = Except.ok ty)
    (hc : c msg = Except.ok v) :
    (dispatchT c (Except.ok msg)).1 =
      Except.ok { type := ty, id := msg.lookup "id", status := 200,
                  data := if pyTruthy v then v else JValue.str "",
                  traceback := none } := by
  simp [dispatchT, hty, hc]

/-- C2 witness: the amended theorem at the Scenario A echo input. -/
theorem C2_success_witness :
    (dispatchT (fun m => Except.ok (m.lookup "data" |>.getD JValue.null))
        (Except.ok (JValue.obj [("type", JValue.str "Echo"),
                                ("id", JValue.str "42"),
                                ("data", JValue.str "hi")]))).1 =
      Except.ok { type := JValue.str "Echo",
                  id := (JValue.obj [("type", JValue.str "Echo"),
                                     ("id", JValue.str "42"),
                                     ("data", JValue.str "hi")]).lookup "id",
                  status := 200,
                  data := if pyTruthy (JValue.str "hi") then JValue.str "hi"
                          else JValue.str "",
                  traceback := none } :=
  C2_success_envelope _ _ _ _ rfl rfl

/-- C3 (counterexample): the dispatcher invokes the handler with the
whole decoded Command Envelope (`callback(msg)`, line 82), not with its
`data` field: on `{"type": "Echo", "data": 5}` the handler argument is
the full object, which is not the value `5`. -/
theorem C3_cex_handler_gets_envelope :
    (dispatchT (fun v => Except.ok v)
        (Except.ok (JValue.obj [("type", JValue.str "Echo"),
                                ("data", JValue.num 5)]))).2 =
      [JValue.obj [("type", JValue.str "Echo"), ("data", JValue.num 5)]] ∧
    JValue.obj [("type", JValue.str "Echo"), ("data", JValue.num 5)] ≠
      JValue.num 5 :=
  ⟨rfl, fun h => JValue.noConfusion h⟩

/-- C3 (amended): the handler is invoked at most once per inbound
envelope, and every invocation passes the entire decoded Command
Envelope as the argument (the handler extracts `data` itself). -/
theorem C3_handler_at_most_once (c : JValue → Except PyExc JValue)
    (d : Except String JValue) :
    (dispatchT c d).2.length ≤ 1 ∧
    (∀ a, a ∈ (dispatchT c d).2 → d = Except.ok a) := by
  cases d with
  | error e => simp [dispatchT]
  | ok msg =>
    cases hg : getItem msg "type" with
    | error esc => simp [dispatchT, hg]
    | ok ty =>
      cases hc : c msg with
      | ok v =>
        refine ⟨?_, ?_⟩ <;> simp [dispatchT, hg, hc]
      | error e =>
        refine ⟨?_, ?_⟩ <;> simp [dispatchT, hg, hc]

/-- C3 witness: at most one invocation, with the whole envelope, at a
concrete input. -/
theorem C3_handler_once_witness :
    (dispatchT (fun _ => Except.ok (JValue.str "ok"))
        (Except.ok (JValue.obj [("type", JValue.str "t")]))).2.length ≤ 1 ∧
    (∀ a, a ∈ (dispatchT (fun _ => Except.ok (JValue.str "ok"))
        (Except.ok (JValue.obj [("type", JValue.str "t")]))).2 →
      (Except.ok (JValue.obj [("type", JValue.str "t")]) :
        Except String JValue) = Except.ok a) :=
  C3_handler_at_most_once _ _

/-- C4: `go_string` (line 26) fills the `GoString` length field with
Python `len(s)` — the character count — while the spec and the
`GoString` foreign contract require the UTF-8 byte length: on `"é"` the
code produces length 1 but the UTF-8 encoding has 2 bytes.  In general
the field always equals the character count. -/
theorem C4_go_string_char_count :
    (go_string "é").n = 1 ∧ ("é" : String).utf8ByteSize = 2 ∧
    (∀ s : String, (go_string s).n = (s.length : Int)) :=
  ⟨rfl, rfl, fun _ => rfl⟩

/-- C5: when the handler raises, the dispatcher produces a Response
Envelope whose status is the `code` of the raised `WsError` when the failure
is a structured `WsError` and 500 otherwise, whose data is the string
form of the failure, and whose traceback is non-empty (lines 85-90). -/
theorem C5_handler_raise (c : JValue → Except PyExc JValue)
    (msg ty : JValue) (e : PyExc)
    (hty : getItem msg "type" = Except.ok ty)
    (hc : c msg = Except.error e) :
    (dispatchT c (Except.ok msg)).1 =
      Except.ok { type := ty, id := msg.lookup "id",
                  status := e.wsCode.getD 500,
                  data := JValue.str e.msg,
                  traceback := some (formatTraceback (e.cause.getD e)) } ∧
    formatTraceback (e.cause.getD e) ≠ "" := by
  refine ⟨by simp [dispatchT, hty, hc], formatTraceback_ne_empty _⟩

/-- C5 witness: Scenario B, the handler raises
`WsError("Project is not opened", 404)` (no cause): status 404, data the
message, non-empty traceback. -/
theorem C5_handler_raise_witness :
    (dispatchT (fun _ => Except.error wsError404)
        (Except.ok msgProjectInfo)).1 =
      Except.ok { type := JValue.str "ProjectInfo",
                  id := msgProjectInfo.lookup "id",
                  status := wsError404.wsCode.getD 500,
                  data := JValue.str wsError404.msg,
                  traceback := some (formatTraceback
                    (wsError404.cause.getD wsError404)) } ∧
    formatTraceback (wsError404.cause.getD wsError404) ≠ "" :=
  C5_handler_raise _ msgProjectInfo (JValue.str "ProjectInfo") wsError404
    rfl rfl

/-- C6: when the raised failure `X` carries an explicit `__cause__` `Y`
(the `raise X from Y` pattern, as in `get_project_layers`), the reported
traceback is computed from `Y`, while status and message come from the
wrapper `X` (line 87 vs. lines 88-89). -/
theorem C6_cause_traceback (c : JValue → Except PyExc JValue)
    (msg ty : JValue) (e y : PyExc)
    (hty : getItem msg "type" = Except.ok ty)
    (hc : c msg = Except.error e)
    (hcause : e.cause = some y) :
    (dispatchT c (Except.ok msg)).1 =
      Except.ok { type := ty, id := msg.lookup "id",
                  status := e.wsCode.getD 500,
                  data := JValue.str e.msg,
                  traceback := some (formatTraceback y) } := by
  simp [dispatchT, hty, hc, hcause]

/-- C6 witness: a wrapper exception with a distinct explicit cause; the
traceback basis is the cause, status and message come from the wrapper. -/
theorem C6_cause_traceback_witness :
    (dispatchT (fun _ => Except.error wrapperExc)
        (Except.ok msgProjectLayers)).1 =
      Except.ok { type := JValue.str "ProjectLayers",
                  id := msgProjectLayers.lookup "id",
                  status := wrapperExc.wsCode.getD 500,
                  data := JValue.str wrapperExc.msg,
                  traceback := some (formatTraceback rootCauseExc) } :=
  C6_cause_traceback _ msgProjectLayers (JValue.str "ProjectLayers")
    wrapperExc rootCauseExc rfl rfl rfl

/-- C7: every Response Envelope the dispatcher produces carries both a
`status` and a `data` key after encoding, and carries a `traceback` key
iff the handler raised (success responses never do; structured failures
do, since they travel the exception path). -/
theorem C7_envelope_fields (c : JValue → Except PyExc JValue)
    (d : Except String JValue) (r : Response)
    (h : (dispatchT c d).1 = Except.ok r) :
    ((encode_response r).lookup "status").isSome = true ∧
    ((encode_response r).lookup "data").isSome = true ∧
    (((encode_response r).lookup "traceback").isSome = true ↔
      ∃ msg e, d = Except.ok msg ∧ c msg = Except.error e) := by
  obtain ⟨hst, hda, htb⟩ := lookup_encode_response r
  refine ⟨by simp [hst], by simp [hda], ?_⟩
  rw [htb]
  cases d with
  | error e => rw [dispatchT] at h; exact absurd h (by simp)
  | ok msg =>
    cases hg : getItem msg "type" with
    | error esc => rw [dispatchT] at h; simp [hg] at h
    | ok ty =>
      cases hc : c msg with
      | ok v =>
        rw [dispatchT] at h
        simp only [hg, hc] at h
        have hr := (Except.ok.injEq _ _).mp h.symm
        subst hr
        simp only [Option.isSome_none, Bool.false_eq_true, false_iff]
        rintro ⟨msg2, e2, hm2, hc2⟩
        have : msg2 = msg := (Except.ok.inj hm2).symm
        subst this
        rw [hc] at hc2
        exact Except.noConfusion hc2
      | error e =>
        rw [dispatchT] at h
        simp only [hg, hc] at h
        have hr := (Except.ok.injEq _ _).mp h.symm
        subst hr
        simp only [Option.isSome_some, true_iff]
        exact ⟨msg, e, rfl, hc⟩

/-- C7 witness: at a concrete success and checking the field presence of
the encoded envelope. -/
theorem C7_envelope_fields_witness :
    ((encode_response sampleResponseOk).lookup "status").isSome = true ∧
    ((encode_response sampleResponseOk).lookup "data").isSome = true ∧
    (((encode_response sampleResponseOk).lookup "traceback").isSome = true ↔
      ∃ msg e, (Except.ok sampleMsgT : Except String JValue) = Except.ok msg ∧
        sampleHandlerOk msg = Except.error e) :=
  C7_envelope_fields sampleHandlerOk (Except.ok sampleMsgT) sampleResponseOk rfl

theorem runOps_loaded : ∀ (ops : List LifeOp) (s : WsSt) (h : Nat),
    s.lib = some h →
    (∀ op ∈ ops, op = LifeOp.loadOp ∨ op = LifeOp.startOp) →
    (runOps ops s).1 = s ∧ (runOps ops s).2.countP isLoadCall = 0 := by
  intro ops
  induction ops with
  | nil => intro s h _ _; exact ⟨rfl, rfl⟩
  | cons op rest ih =>
    intro s h hs hops
    have hop := hops op (List.mem_cons_self op rest)
    have hrest : ∀ o ∈ rest, o = LifeOp.loadOp ∨ o = LifeOp.startOp :=
      fun o ho => hops o (List.mem_cons_of_mem op ho)
    have hload : GisquickWs.load_lib s = (s, []) := by
      simp [GisquickWs.load_lib, hs]
    obtain hr := ih s h hs hrest
    obtain h1 | h1 := hop <;> subst h1
    · constructor <;>
        simp [runOps, runOp, hload, hr.1, hr.2]
    · constructor <;>
        simp [runOps, runOp, GisquickWs.start, hload, hr.1, hr.2, isLoadCall]

/-- C8: any sequence of two or more `load()`/`start()` calls before any
`stop()`, from the initial state, performs exactly one native
`LoadLibrary` and ends holding the one handle it produced; and whenever
a handle already exists, `_load_lib` performs no new load. -/
theorem C8_load_idempotent (ops : List LifeOp)
    (hlen : 2 ≤ ops.length)
    (hops : ∀ op ∈ ops, op = LifeOp.loadOp ∨ op = LifeOp.startOp) :
    (runOps ops initSt).2.countP isLoadCall = 1 ∧
    (runOps ops initSt).1.lib = some 0 ∧
    (∀ (s : WsSt) (h : Nat), s.lib = some h →
      GisquickWs.load_lib s = (s, [])) := by
  have hnoop : ∀ (s : WsSt) (h : Nat), s.lib = some h →
      GisquickWs.load_lib s = (s, []) := by
    intro s h hs
    simp [GisquickWs.load_lib, hs]
  cases ops with
  | nil => exact absurd hlen (by simp)
  | cons op rest =>
    have hop := hops op (List.mem_cons_self op rest)
    have hrest : ∀ o ∈ rest, o = LifeOp.loadOp ∨ o = LifeOp.startOp :=
      fun o ho => hops o (List.mem_cons_of_mem op ho)
    have hfirst : GisquickWs.load_lib initSt =
        ({ lib := some 0, nextHandle := 1 }, [NativeCall.loadLibrary 0]) := rfl
    have hr := runOps_loaded rest { lib := some 0, nextHandle := 1 } 0 rfl hrest
    obtain h1 | h1 := hop <;> subst h1
    · refine ⟨?_, ?_, hnoop⟩ <;>
        simp [runOps, runOp, hfirst, hr.1, hr.2, isLoadCall]
    · refine ⟨?_, ?_, hnoop⟩ <;>
        simp [runOps, runOp, GisquickWs.start, hfirst, hr.1, hr.2, isLoadCall]

/-- C8 witness: two consecutive `load()` calls load the artifact once
and keep the single handle. -/
theorem C8_load_idempotent_witness :
    (runOps [LifeOp.loadOp, LifeOp.loadOp] initSt).2.countP isLoadCall = 1 ∧
    (runOps [LifeOp.loadOp, LifeOp.loadOp] initSt).1.lib = some 0 ∧
    (∀ (s : WsSt) (h : Nat), s.lib = some h →
      GisquickWs.load_lib s = (s, [])) :=
  C8_load_idempotent [LifeOp.loadOp, LifeOp.loadOp] (by decide) (by decide)

/-- C9: while no Native Handle exists (before any `load()`/`start()`),
`stop()` and `send()` are harmless no-ops: neither raises and neither
invokes any native entry point. -/
theorem C9_noop_without_handle (s : WsSt) (name : String) (d : JValue)
    (hs : s.lib = none) :
    GisquickWs.stop s = [] ∧ GisquickWs.send s name d = Except.ok [] := by
  constructor <;> simp [GisquickWs.stop, GisquickWs.send, hs]

/-- C9 witness: `stop`/`send` on the initial state. -/
theorem C9_noop_witness :
    GisquickWs.stop initSt = [] ∧
    GisquickWs.send initSt "ProjectChanged" (JValue.num 1) = Except.ok [] :=
  C9_noop_without_handle initSt "ProjectChanged" (JValue.num 1) rfl

/-- C10: the QGIS `NULL` sentinel is normalized to JSON null only by the
response encoder of the dispatcher (`GisquickJSONEncoder`, line 103);
`send()` serializes its outbound message with the plain `json.dumps`
(line 132), so with a handle loaded and any `data` containing the
sentinel, `send()` raises the serialization `TypeError` instead of
sending null, while the response encoder is total and leaves no sentinel
in any encoded Response Envelope. -/
theorem C10_sentinel_only_in_response_encoder (s : WsSt) (h : Nat)
    (name : String) (d : JValue)
    (hs : s.lib = some h) (hd : hasQgisNull d = true) :
    GisquickWs.send s name d = Except.error
      "TypeError: Object of type QVariant is not JSON serializable" ∧
    normalizeNull JValue.qgisNull = JValue.null ∧
    (∀ r : Response, hasQgisNull (encode_response r) = false) := by
  refine ⟨?_, by simp [normalizeNull], ?_⟩
  · cases d <;>
      simp_all [GisquickWs.send, json_dumps, hasQgisNull, hasQgisNullList,
        hasQgisNullFields, hs]
  · intro r
    simp [encode_response, dumps_gisquick, hasQgisNull_normalizeNull]

/-- C10 witness: `send` with the bare sentinel as data fails to
serialize while a handle is loaded. -/
theorem C10_sentinel_witness :
    GisquickWs.send { lib := some 0, nextHandle := 1 } "UpdateUserData"
        JValue.qgisNull = Except.error
      "TypeError: Object of type QVariant is not JSON serializable" ∧
    normalizeNull JValue.qgisNull = JValue.null ∧
    (∀ r : Response, hasQgisNull (encode_response r) = false) :=
  C10_sentinel_only_in_response_encoder { lib := some 0, nextHandle := 1 }
    0 "UpdateUserData" JValue.qgisNull rfl (by simp [hasQgisNull])
